import Mathlib

/-!
A shallow embedding, in Lean 4, of the betaduck command-line package
(`betaduck_main.py`, `prom_beta_align_wrapper.py`, `prom_beta_tar_gen_config.py`,
`prom_beta_tar_runner.py`, `prom_beta_plotter_reader.py`), together with
theorems about the embedded code.

External binaries (minimap2, samtools, curl, gzip, the wub QC scripts) are
modelled as emitted commands (`ExtCall`), the filesystem as explicit maps, and
Python exceptions / `sys.exit` as `Option` / `Except` results.  Each definition
is annotated with the source function and lines it embeds.
-/

namespace Betaduck

/-- Embeds `os.path.join a b` for a relative second component `b`: `a ++ "/" ++ b`. -/
def pjoin (a b : String) : String := a ++ "/" ++ b

/-- Python truthiness of a string under `not`: `not s` is `True` exactly when
`s` is the empty string (equivalently, `len(s) == 0`). -/
def pyNot (s : String) : Bool := s.length == 0

/-- Code-point comparison of character lists: Python string `<=`. -/
def charListLe : List Char → List Char → Bool
  | [], _ => true
  | _ :: _, [] => false
  | a :: as, b :: bs =>
    if a.toNat < b.toNat then true
    else if b.toNat < a.toNat then false
    else charListLe as bs

/-- Python string `<=` on the underlying code points. -/
def pyStrLe (a b : String) : Bool := charListLe a.data b.data

/-- Drop `pat` when it is a leading run of `l`, else `none`. -/
def dropPat : List Char → List Char → Option (List Char)
  | [], l => some l
  | _ :: _, [] => none
  | p :: ps, c :: cs => if p = c then dropPat ps cs else none

/-- Fuelled splitter on character lists (the fuel is an upper bound on the
input length and is consumed one character per step, so it never runs out at
the call sites, whose separators are all non-empty). -/
def splitChars (pat : List Char) : Nat → List Char → List Char → List (List Char)
  | 0, _, cur => [cur.reverse]
  | Nat.succ fuel, l, cur =>
    match l with
    | [] => [cur.reverse]
    | c :: cs =>
      match dropPat pat l with
      | some rest => cur.reverse :: splitChars pat fuel rest []
      | none => splitChars pat fuel cs (c :: cur)

/-- Python `s.split(sep)` for a non-empty separator. -/
def pySplitOn (s sep : String) : List String :=
  (splitChars sep.data (s.data.length + 1) s.data []).map String.mk

/-- Python `s.endswith(t)`. -/
def pyEndsWith (s t : String) : Bool :=
  s.data.reverse.take t.data.length == t.data.reverse

/-- Python `s.startswith(t)`. -/
def pyStartsWith (s t : String) : Bool :=
  s.data.take t.data.length == t.data

/-- Drop the last `n` characters of `s`. -/
def pyDropRight (s : String) (n : Nat) : String :=
  String.mk (s.data.take (s.data.length - n))

/-- Python `s.split(sep, maxsplit)`: at most `maxsplit` splits, the remainder
(joined back with `sep`) becomes the final element. -/
def pySplit (s sep : String) (maxsplit : Nat) : List String :=
  let parts := pySplitOn s sep
  if parts.length ≤ maxsplit + 1 then parts
  else parts.take maxsplit ++ [String.intercalate sep (parts.drop maxsplit)]

/-- Tuple unpacking `a, b, c = l` of a Python list into three targets:
raises `ValueError` (here `none`) unless the list has exactly three items. -/
def unpack3 (l : List String) : Option (String × String × String) :=
  match l with
  | [a, b, c] => some (a, b, c)
  | _ => none

/-- Python `s.replace(pat, repl)` (all occurrences).  Also used for
`re.sub(pat, repl, s)` where the pattern is a literal apart from an
unescaped dot, which for the file names at hand matches only itself. -/
def pyReplace (s pat repl : String) : String :=
  String.intercalate repl (pySplitOn s pat)

/-- Embeds `os.path.basename(os.path.normpath(p))`: the last `/`-separated component. -/
def pyBasename (p : String) : String :=
  (pySplitOn p "/").getLastD p

/-- Python `s.zfill(width)` for unsigned digit strings: left-pad with zeros.
(The sign-moving behaviour of `zfill` is irrelevant for the file-number
strings it is applied to here.) -/
def pyZfill (s : String) (width : Nat) : String :=
  if width ≤ s.length then s else String.mk (List.replicate (width - s.length) '0') ++ s

/-- Insertion of a string into a sorted list, for `pySorted`. -/
def insertStr (x : String) : List String → List String
  | [] => [x]
  | y :: ys => if pyStrLe x y then x :: y :: ys else y :: insertStr x ys

/-- Python `sorted` on a list of strings (lexicographic). -/
def pySorted : List String → List String
  | [] => []
  | x :: xs => insertStr x (pySorted xs)

/-- Whether path `p` lies (directly) under directory `d`. -/
def underDir (d p : String) : Bool := pyStartsWith p (d ++ "/")

/-! ## betaduck_main.py -/

/-- The four subcommand modules of `betaduck_main.py`. -/
inductive Module
  | config
  | tidy
  | plot
  | align
deriving DecidableEq, Repr

/-- Embeds `run_function` (betaduck_main.py lines 16-30).  Returns the module whose
`main` is invoked, or `none` when the function returns without invoking any.
The first `if`/`elif` chain binds `command_to_run` for `config`/`tidy`/`plot`,
but the `align` test is a fresh `if` statement (not an `elif`), and its `else`
branch `return`s before the call `command_to_run.main(args)` is reached, so the
binding made by the first chain is dead. -/
def run_function (command : String) : Option Module :=
  let command_to_run : Option Module :=
    if command == "config" then some Module.config
    else if command == "tidy" then some Module.tidy
    else if command == "plot" then some Module.plot
    else none
  if command == "align" then
    let command_to_run := some Module.align
    command_to_run
  else
    none

/-! ## prom_beta_align_wrapper.py: data model -/

/-- The `Genome` class (prom_beta_align_wrapper.py lines 14-30): the three
constructor arguments.  The path attributes computed by `__init__` are the
functions below.  (The lambda-specific attributes are set only when
`w_lambda` is true in the source; here they are defined unconditionally and
used only under a `w_lambda` guard, exactly as in the source.) -/
structure Genome where
  genome_dir : String
  name : String
  w_lambda : Bool
deriving DecidableEq, Repr

def Genome.path (g : Genome) : String := pjoin g.genome_dir g.name

def Genome.host_genome_path (g : Genome) : String :=
  pjoin (pjoin g.genome_dir g.name) "genome.fa"

def Genome.host_minimap2_index (g : Genome) : String :=
  pjoin (pjoin g.genome_dir g.name) "genome.mmi"

def Genome.host_w_lambda_genome_path (g : Genome) : String :=
  pjoin (pjoin g.genome_dir g.name) "genome.w_lambda.fa"

def Genome.host_w_lambda_minimap2_index (g : Genome) : String :=
  pjoin (pjoin g.genome_dir g.name) "genome.w_lambda.mmi"

def Genome.lambda_path (g : Genome) : String := pjoin g.genome_dir "lambda"

def Genome.lambda_genome_path (g : Genome) : String :=
  pjoin (pjoin g.genome_dir "lambda") "genome.fa"

def Genome.lambda_genome_bed (g : Genome) : String :=
  pjoin (pjoin g.genome_dir "lambda") "genome.bed"

def Genome.lambda_samtools_index (g : Genome) : String :=
  pjoin (pjoin g.genome_dir "lambda") "genome.fa.fai"

/-- The distinct places in `prom_beta_align_wrapper.py` where an external
binary is invoked via `subprocess`. -/
inductive CallSite
  | minimap2Index      -- generate_index, line 143
  | curlLambda         -- get_index, line 324
  | gzipLambda         -- get_index, line 326
  | faidxLambda        -- get_index, line 331
  | alignMinimap2      -- generate_alignment, p1, line 172
  | alignViewSplit     -- generate_alignment, p2, line 174
  | alignSortHost      -- generate_alignment, p3 (non-lambda), line 179
  | alignSortLambda    -- generate_alignment, p3 (lambda), line 195
  | alignViewLambda    -- generate_alignment, p4, line 199
  | alignSamtoolsIndex -- generate_alignment, lines 187-189 and 209-212
  | mergeBam           -- merge_bams, line 375
  | mergeIndex         -- merge_bams, line 384
  | qcHost             -- generate_pickle, line 229
  | qcLambda           -- generate_pickle, line 244
  | multiqc            -- run_wubber_multiqc, line 423
deriving DecidableEq, Repr

/-- One external-binary invocation: the invocation site, the argv list, and
whether the Python code inspects `returncode` of this process afterwards. -/
structure ExtCall where
  site : CallSite
  cmd : List String
  checked : Bool
deriving DecidableEq, Repr

/-- Exit codes handed back by the environment, one per invoked argv. -/
abbrev Oracle := List String → Int

/-- Lines 116-122: the URL the lambda decoy genome is downloaded from. -/
def lambda_genome_url : String :=
  "ftp://ftp.ncbi.nlm.nih.gov/genomes/all/GCF/000/840/245/GCF_000840245.1_ViralProj14204/GCF_000840245.1_ViralProj14204_genomic.fna.gz"

/-- Embeds `generate_index` (lines 137-148): the single minimap2 index-build command
it runs; `returncode` is checked and a warning logged on failure. -/
def generate_index (index_file genome_file : String) : ExtCall :=
  ⟨CallSite.minimap2Index,
   ["minimap2", "-x", "map-ont", "-d", index_file, genome_file], true⟩

/-- Embeds `check_index` (lines 290-297), returning the list of index-build commands
run.  The source tests `not genome.host_w_lambda_minimap2_index` and
`not genome.host_genome_path` — Python truthiness of the path *strings*
(via `pyNot`), not existence of the files; `check_index` never consults the
filesystem. -/
def check_index (g : Genome) : List ExtCall :=
  if g.w_lambda && pyNot g.host_w_lambda_minimap2_index then
    [generate_index g.host_w_lambda_minimap2_index g.host_w_lambda_genome_path]
  else if !g.w_lambda && pyNot g.host_genome_path then
    [generate_index g.host_minimap2_index g.host_genome_path]
  else
    []

/-! ## combine_lambda_genome (C5) -/

/-- A FASTA record as parsed by `Bio.SeqIO`. -/
structure FastaRecord where
  id : String
  seq : String
deriving DecidableEq, Repr

/-- The FASTA contents of the filesystem: each path maps to the list of
records `SeqIO.parse` would yield from it. -/
abbrev FastaFS := String → List FastaRecord

/-- Embeds `Bio.SeqIO.read(handle, "fasta")`: exactly one record, otherwise a
`ValueError` is raised (modelled as `none`). -/
def SeqIO_read (records : List FastaRecord) : Option FastaRecord :=
  match records with
  | [r] => some r
  | _ => none

/-- Embeds `combine_lambda_genome` (lines 346-357).  Opens the combined path for
writing (truncating it), streams every host-genome record into it, then writes
the single record `SeqIO.read` yields from the lambda genome.  Returns the
resulting FASTA filesystem and whether the function completed without an
exception (a multi-record or empty lambda file raises inside `SeqIO.read`,
after the host records were already written). -/
def combine_lambda_genome (ffs : FastaFS) (g : Genome) : FastaFS × Bool :=
  let ffs1 : FastaFS :=
    fun p => if p = g.host_w_lambda_genome_path then [] else ffs p
  let ffs2 : FastaFS :=
    fun p => if p = g.host_w_lambda_genome_path then ffs1 g.host_genome_path else ffs1 p
  match SeqIO_read (ffs2 g.lambda_genome_path) with
  | some lam =>
      (fun p => if p = g.host_w_lambda_genome_path then ffs2 p ++ [lam] else ffs2 p, true)
  | none => (ffs2, false)

/-- Embeds `get_index` lines 339-340: `combine_lambda_genome` is called exactly when
lambda filtering is on and the combined reference file is absent. -/
def get_index_combine_step (g : Genome) (isfile : String → Bool) (ffs : FastaFS) :
    FastaFS × Bool :=
  if g.w_lambda && !isfile g.host_w_lambda_genome_path then
    combine_lambda_genome ffs g
  else
    (ffs, true)

/-! ## SubFolder, Sample and the alignment pipeline trace -/

/-- Anchored `re.sub(".fastq.gz$", "", s)` (SubFolder, line 93): strip the
nine-character suffix when present. -/
def stripFastqGzSuffix (s : String) : String :=
  if pyEndsWith s ".fastq.gz" then pyDropRight s 9 else s

/-- The `SubFolder` class (lines 90-113).  `prefix` in the source is
`prefix_name` here.  Attributes that the source sets only in one branch
(`lambda_aligned` is `None` otherwise; `lambda_pickle` / `lambda_report`
are unset) are `Option`s. -/
structure SubFolder where
  fastq_path : String
  prefix_name : String
  w_lambda : Bool
  genome : Genome
  index : String
  host_aligned : String
  lambda_aligned : Option String
  host_pickle : String
  lambda_pickle : Option String
  host_report : String
  lambda_report : Option String
  unaligned : String
  unaligned_pickle : String
  unaligned_report : String
deriving DecidableEq, Repr

/-- Embeds `SubFolder.__init__` (lines 91-113). -/
def mkSubFolder (fastq_file output_dir : String) (g : Genome) (w_lambda : Bool) :
    SubFolder :=
  let pfx := stripFastqGzSuffix (pyBasename fastq_file)
  { fastq_path := fastq_file
    prefix_name := pfx
    w_lambda := w_lambda
    genome := g
    index := if w_lambda then g.host_w_lambda_minimap2_index else g.host_minimap2_index
    host_aligned :=
      if w_lambda then pjoin (pjoin output_dir g.name) (pfx ++ ".lambda-filt.sorted.bam")
      else pjoin (pjoin output_dir g.name) (pfx ++ ".sorted.bam")
    lambda_aligned :=
      if w_lambda then some (pjoin (pjoin output_dir "lambda") (pfx ++ ".lambda.sorted.bam"))
      else none
    host_pickle :=
      if w_lambda then pjoin (pjoin output_dir "wub") (pfx ++ ".lambda-filt.pickle")
      else pjoin (pjoin output_dir "wub") (pfx ++ ".pickle")
    lambda_pickle :=
      if w_lambda then some (pjoin (pjoin output_dir "wub") (pfx ++ ".lambda.pickle"))
      else none
    host_report :=
      if w_lambda then pjoin (pjoin output_dir "wub") (pfx ++ ".lambda-filt.pdf")
      else pjoin (pjoin output_dir "wub") (pfx ++ ".pdf")
    lambda_report :=
      if w_lambda then some (pjoin (pjoin output_dir "wub") (pfx ++ ".lambda.pdf"))
      else none
    unaligned := pjoin (pjoin output_dir "unaligned") (pfx ++ ".unaligned.bam")
    unaligned_pickle := pjoin (pjoin output_dir "wub") (pfx ++ ".unaligned.pickle")
    unaligned_report := pjoin (pjoin output_dir "wub") (pfx ++ ".unaligned.pdf") }

/-- Embeds `collect_fastqs` (lines 271-280): the sorted joined paths of the files of
the listing ending in ".fastq.gz" (the empty case exits and is handled at the
call site in `mkSample`). -/
def collect_fastqs (fastq_dir : String) (listing : List String) : List String :=
  pySorted ((listing.filter (fun f => pyEndsWith f ".fastq.gz")).map
    (fun f => pjoin fastq_dir f))

/-- The `Sample` class (lines 33-87): the fields the pipeline uses. -/
structure Sample where
  fastq_files : List String
  genome : Genome
  w_lambda : Bool
  alignment_objects : List SubFolder
  flowcell : String
  rnumber : String
  sample_prefix_name : String
  unaligned_merged_bam_file : String
  unaligned_merged_pickle_file : String
  unaligned_files : List String
  unaligned_pickles : List String
  host_merged_bam_file : String
  lambda_merged_bam_file : Option String
  host_merged_pickle_file : String
  lambda_merged_pickle_file : Option String
  host_alignment_files : List String
  lambda_alignment_files : List String
  host_alignment_pickles : List String
  lambda_alignment_pickles : List String
  merged_bam_files : List String
  merged_pickles : List String
deriving DecidableEq, Repr

/-- Embeds `Sample.__init__` (lines 34-87), given the collected FASTQ list and its
first element `fastq_files[0]`: `none` models the `ValueError` of the
three-target unpacking of `split("_", 3)` (line 40).  `prefix` names from the
source carry a `_name` suffix here. -/
def sample_init (fastq_files : List String) (f0 : String) (output_dir : String)
    (g : Genome) : Option Sample :=
  match unpack3 (pySplit (pyReplace (pyBasename f0) ".fastq.gz" "") "_" 3) with
  | none => none
  | some (_, flowcell, rnumber) =>
      let alignment_objects :=
        fastq_files.map (fun f => mkSubFolder f output_dir g g.w_lambda)
      let merged_dir := pjoin output_dir "merged"
      let host_merged_bam_file :=
        if g.w_lambda then
          pjoin merged_dir
            (String.intercalate "_" [g.name ++ ".lambda-filt", flowcell, rnumber]
              ++ ".sorted.merged.bam")
        else
          pjoin merged_dir
            (String.intercalate "_" [g.name, flowcell, rnumber] ++ ".sorted.merged.bam")
      let host_merged_pickle_file :=
        if g.w_lambda then
          pjoin merged_dir
            (String.intercalate "_" [g.name ++ ".lambda-filt", flowcell, rnumber]
              ++ ".merged.pickle")
        else
          pjoin merged_dir
            (String.intercalate "_" [g.name, flowcell, rnumber] ++ ".merged.pickle")
      let unaligned_merged_bam_file :=
        pjoin merged_dir
          (String.intercalate "_" ["unaligned", flowcell, rnumber] ++ ".sorted.merged.bam")
      let unaligned_merged_pickle_file :=
        pjoin merged_dir
          (String.intercalate "_" ["unaligned", flowcell, rnumber] ++ ".merged.pickle")
      let lambda_merged_bam_file :=
        pjoin merged_dir
          (String.intercalate "_" ["lambda", flowcell, rnumber] ++ ".sorted.merged.bam")
      let lambda_merged_pickle_file :=
        pjoin merged_dir
          (String.intercalate "_" ["lambda", flowcell, rnumber] ++ ".merged.pickle")
      some
        { fastq_files := fastq_files
          genome := g
          w_lambda := g.w_lambda
          alignment_objects := alignment_objects
          flowcell := flowcell
          rnumber := rnumber
          sample_prefix_name := String.intercalate "_" [g.name, flowcell, rnumber]
          unaligned_merged_bam_file := unaligned_merged_bam_file
          unaligned_merged_pickle_file := unaligned_merged_pickle_file
          unaligned_files := alignment_objects.map (fun a => a.unaligned)
          unaligned_pickles := alignment_objects.map (fun a => a.unaligned_pickle)
          host_merged_bam_file := host_merged_bam_file
          lambda_merged_bam_file :=
            if g.w_lambda then some lambda_merged_bam_file else none
          host_merged_pickle_file := host_merged_pickle_file
          lambda_merged_pickle_file :=
            if g.w_lambda then some lambda_merged_pickle_file else none
          host_alignment_files := alignment_objects.map (fun a => a.host_aligned)
          lambda_alignment_files :=
            if g.w_lambda then alignment_objects.map (fun a => a.lambda_aligned.getD "")
            else []
          host_alignment_pickles := alignment_objects.map (fun a => a.host_pickle)
          lambda_alignment_pickles :=
            if g.w_lambda then alignment_objects.map (fun a => a.lambda_pickle.getD "")
            else []
          merged_bam_files :=
            if g.w_lambda then
              [host_merged_bam_file, unaligned_merged_bam_file, lambda_merged_bam_file]
            else [host_merged_bam_file, unaligned_merged_bam_file]
          merged_pickles :=
            if g.w_lambda then
              [host_merged_pickle_file, unaligned_merged_pickle_file,
               lambda_merged_pickle_file]
            else [host_merged_pickle_file, unaligned_merged_pickle_file] }

/-- Embeds `Sample(fastq_dir, output_dir, genome)` as constructed in `main`:
`collect_fastqs` exits (`none`) when no FASTQ file is found (line 278),
otherwise `Sample.__init__` runs on the collected list. -/
def mkSample (input_dir output_dir : String) (g : Genome) (listing : List String) :
    Option Sample :=
  match collect_fastqs input_dir listing with
  | [] => none
  | f0 :: rest => sample_init (f0 :: rest) f0 output_dir g

/-- Warning lines emitted after an external call: present exactly when the
call's exit code is inspected and the environment reports non-zero. -/
def warnLogs (o : Oracle) (c : ExtCall) (msgs : List String) : List String :=
  if c.checked && !(o c.cmd == 0) then msgs else []

/-- The minimap2 alignment command (lines 151-162). -/
def minimap2_alignment_command (sub : SubFolder) (md : Bool) (cs : String) :
    List String :=
  ["minimap2", "-a"]
    ++ (if md then ["--MD"] else [])
    ++ (if cs == "long" then ["--cs=long"]
        else if cs == "short" then ["--cs=short"] else [])
    ++ [sub.index, sub.fastq_path]

/-- Embeds `generate_alignment` (lines 151-216): the chain of external processes one
alignment job runs, with the warning logs its exit-code checks can emit.
minimap2 (`p1`) pipes into `samtools view -bu -F4 -U unaligned` (`p2`); in the
non-lambda branch the pipe ends with `samtools sort -o host_aligned` (`p3`,
whose `returncode` is checked) followed by `samtools index`; in the lambda
branch it continues through `samtools sort` (`p3`, not checked) into
`samtools view -b -L lambda.bed -U host -o lambda` (`p4`, checked) followed by
`samtools index` on the lambda and host files.  `p1` and `p2` have no
`returncode` inspection in either branch. -/
def generate_alignment_run (sub : SubFolder) (md : Bool) (cs : String) (o : Oracle) :
    List ExtCall × List String :=
  let p1 : ExtCall := ⟨CallSite.alignMinimap2, minimap2_alignment_command sub md cs, false⟩
  let p2 : ExtCall :=
    ⟨CallSite.alignViewSplit, ["samtools", "view", "-bu", "-F4", "-U", sub.unaligned], false⟩
  if !sub.w_lambda then
    let p3 : ExtCall :=
      ⟨CallSite.alignSortHost, ["samtools", "sort", "-o", sub.host_aligned], true⟩
    let idx : ExtCall :=
      ⟨CallSite.alignSamtoolsIndex, ["samtools", "index", sub.host_aligned], true⟩
    ([p1, p2, p3, idx],
     warnLogs o p3
        ["BAM Alignment returned non-zero exit code for alignment file "
          ++ sub.host_aligned]
       ++ warnLogs o idx
        ["Indexing of samtools index " ++ sub.host_aligned
          ++ " returned non-zero exit code"])
  else
    let la := sub.lambda_aligned.getD ""
    let p3 : ExtCall := ⟨CallSite.alignSortLambda, ["samtools", "sort"], false⟩
    let p4 : ExtCall :=
      ⟨CallSite.alignViewLambda,
       ["samtools", "view", "-b", "-L", sub.genome.lambda_genome_bed,
        "-U", sub.host_aligned, "-o", la], true⟩
    let idxL : ExtCall := ⟨CallSite.alignSamtoolsIndex, ["samtools", "index", la], true⟩
    let idxH : ExtCall :=
      ⟨CallSite.alignSamtoolsIndex, ["samtools", "index", sub.host_aligned], true⟩
    ([p1, p2, p3, p4, idxL, idxH],
     warnLogs o p4
        ["BAM Alignment returned non-zero exit code for alignment file "
          ++ sub.host_aligned]
       ++ warnLogs o idxL
        ["Indexing of samtools index " ++ la ++ " returned non-zero exit code"]
       ++ warnLogs o idxH
        ["Indexing of samtools index " ++ sub.host_aligned
          ++ " returned non-zero exit code"])

/-- Embeds `generate_pickle` (lines 219-261): `bam_alignment_qc.py` on the per-file
host alignment (always), and on the per-file lambda alignment when lambda
filtering is on.  The unaligned QC invocation (lines 258-261) is commented out
in the source, so only its command string is built and no process is run. -/
def generate_pickle_run (sub : SubFolder) (o : Oracle) : List ExtCall × List String :=
  let host : ExtCall :=
    ⟨CallSite.qcHost,
     ["bam_alignment_qc.py", "-x", "-f", sub.genome.host_genome_path,
      "-p", sub.host_pickle, "-r", sub.host_report,
      "-t", sub.genome.name, "-Q", sub.host_aligned], true⟩
  if sub.w_lambda then
    let lam : ExtCall :=
      ⟨CallSite.qcLambda,
       ["bam_alignment_qc.py", "-x", "-f", sub.genome.lambda_genome_path,
        "-p", sub.lambda_pickle.getD "", "-r", sub.lambda_report.getD "",
        "-t", "lambda", "-Q", sub.lambda_aligned.getD ""], true⟩
    ([host, lam],
     warnLogs o host ["Bam QC returned non-zero exit code"]
       ++ warnLogs o lam ["Bam QC returned non-zero exit code"])
  else
    ([host], warnLogs o host ["Bam QC returned non-zero exit code"])

/-- Embeds `merge_bams` (lines 360-389): for each pooled output (host, unaligned, and
lambda when enabled), one `samtools merge -f` of the per-file inputs followed
by one `samtools index` of the merged file; both exit codes are checked and
logged. -/
def merge_bams_run (s : Sample) (o : Oracle) : List ExtCall × List String :=
  let merged_bam_file_list :=
    [s.host_merged_bam_file, s.unaligned_merged_bam_file]
      ++ (if s.w_lambda then [s.lambda_merged_bam_file.getD ""] else [])
  let alignment_file_list :=
    [s.host_alignment_files, s.unaligned_files]
      ++ (if s.w_lambda then [s.lambda_alignment_files] else [])
  let pairs := merged_bam_file_list.zip alignment_file_list
  (pairs.flatMap (fun p =>
      [⟨CallSite.mergeBam, ["samtools", "merge", "-f", p.1] ++ p.2, true⟩,
       ⟨CallSite.mergeIndex, ["samtools", "index", p.1], true⟩]),
   pairs.flatMap (fun p =>
      warnLogs o ⟨CallSite.mergeBam, ["samtools", "merge", "-f", p.1] ++ p.2, true⟩
        ["Error, merging did not go smoothly"]
        ++ warnLogs o ⟨CallSite.mergeIndex, ["samtools", "index", p.1], true⟩
          ["Error, indexing of merged bam did not go smoothly"]))

/-- Embeds `run_wubber_multiqc` (lines 411-426): the single `bam_multi_qc.py`
aggregate-report invocation over the merged pickles; exit code checked. -/
def run_wubber_multiqc_run (s : Sample) (qc_dir : String) (o : Oracle) :
    List ExtCall × List String :=
  let c : ExtCall :=
    ⟨CallSite.multiqc,
     ["bam_multi_qc.py", "-r", pjoin qc_dir (s.sample_prefix_name ++ ".multiqc.pdf")]
       ++ s.merged_pickles, true⟩
  ([c], warnLogs o c ["Bam multiqc returned non-zero exit code"])

/-- Embeds `get_index` (lines 300-343): `none` models the `sys.exit` branches (missing
genome directory / host genome file).  When lambda filtering is on, a missing
lambda genome triggers `curl` and `gzip` (no exit-code check on either), and a
missing `.fai` triggers `samtools faidx` (no check).  The bed-file write and
`combine_lambda_genome` run no external command, and the final `check_index`
contributes whatever index-build commands it runs (`generate_index` checks its
exit code and warns). -/
def get_index_run (g : Genome) (isdir isfile : String → Bool) (o : Oracle) :
    Option (List ExtCall × List String) :=
  if !isdir g.path then none
  else if !isfile g.host_genome_path then none
  else
    let curlCalls : List ExtCall :=
      if g.w_lambda && !isfile g.lambda_genome_path then
        [⟨CallSite.curlLambda, ["curl", "-O", lambda_genome_url], false⟩,
         ⟨CallSite.gzipLambda,
          ["gzip", "--decompress",
           pjoin g.lambda_path (pyBasename lambda_genome_url)], false⟩]
      else []
    let faidxCalls : List ExtCall :=
      if g.w_lambda && !isfile g.lambda_samtools_index then
        [⟨CallSite.faidxLambda, ["samtools", "faidx", g.lambda_genome_path], false⟩]
      else []
    let checkCalls := check_index g
    some (curlCalls ++ faidxCalls ++ checkCalls,
          checkCalls.flatMap (fun c =>
            warnLogs o c ["Index command returned non-zero exit code"]))

/-- Line 441 of `main`: the worker-pool bound handed to
`concurrent.futures.ThreadPoolExecutor(max_workers=...)`. -/
def pool_workers (threads : Int) : Int := if threads = 1 then 1 else threads - 1

/-- The phases of one `align` invocation, in their execution order in `main`
(lines 429-482): index preparation, then the per-FASTQ alignment jobs (the
first executor block completes all of them before `main` continues), then the
BAM merges, then the per-FASTQ QC jobs (second executor block), then the
aggregate report. -/
structure AlignPhases where
  workers : Int
  index_calls : List ExtCall
  job_calls : List (List ExtCall)
  merge_calls : List ExtCall
  qc_calls : List (List ExtCall)
  report_calls : List ExtCall
deriving DecidableEq, Repr

/-- The arguments of the `align` subcommand (betaduck_main.py lines 87-105). -/
structure AlignArgs where
  fastq_dir : String
  output_dir : String
  genome_dir : String
  genome : String
  w_lambda : Bool
  cs : String
  md : Bool
  threads : Int
deriving DecidableEq, Repr

/-- All external calls of an `align` invocation, in order. -/
def AlignPhases.allCalls (ph : AlignPhases) : List ExtCall :=
  ph.index_calls ++ ph.job_calls.flatten ++ ph.merge_calls ++ ph.qc_calls.flatten
    ++ ph.report_calls

/-- Embeds `main` (lines 429-482): builds the genome, prepares the index
(`get_index`), builds the sample, fans the alignment jobs out over the worker
pool, merges the BAMs, runs the per-file QC jobs, merges the pickles (a pure
library step with no external call, lines 392-408) and runs the aggregate
report.  `listing` is the directory listing of `fastq_dir`; `isdir`/`isfile`
expose the filesystem tests; `o` supplies the exit codes.  Directory-creation
side effects (`os.mkdir`) are not modelled. -/
def main_align_phases (g : Genome) (fastq_dir output_dir : String) (md : Bool)
    (cs : String) (threads : Int) (listing : List String)
    (isdir isfile : String → Bool) (o : Oracle) : Option (AlignPhases × List String) :=
  match get_index_run g isdir isfile o with
  | none => none
  | some (idxCalls, idxLogs) =>
    match mkSample fastq_dir output_dir g listing with
    | none => none
    | some s =>
      some
        ({ workers := pool_workers threads
           index_calls := idxCalls
           job_calls :=
             (s.alignment_objects.map
               (fun sub => generate_alignment_run sub md cs o)).map (fun j => j.1)
           merge_calls := (merge_bams_run s o).1
           qc_calls :=
             (s.alignment_objects.map
               (fun sub => generate_pickle_run sub o)).map (fun j => j.1)
           report_calls := (run_wubber_multiqc_run s (pjoin output_dir "wub") o).1 },
         idxLogs
           ++ ((s.alignment_objects.map
               (fun sub => generate_alignment_run sub md cs o)).map (fun j => j.2)).flatten
           ++ (merge_bams_run s o).2
           ++ ((s.alignment_objects.map
               (fun sub => generate_pickle_run sub o)).map (fun j => j.2)).flatten
           ++ (run_wubber_multiqc_run s (pjoin output_dir "wub") o).2)

def main_run (args : AlignArgs) (listing : List String) (isdir isfile : String → Bool)
    (o : Oracle) : Option (AlignPhases × List String) :=
  main_align_phases ⟨args.genome_dir, args.genome, args.w_lambda⟩ args.fastq_dir
    args.output_dir args.md args.cs args.threads listing isdir isfile o

/-- The invocation sites whose exit code the source never inspects: the lambda
download (`curl`), its decompression (`gzip`), the `samtools faidx` run, and
the non-final processes of each alignment pipe (`p1`, `p2`, and the lambda
branch's plain `samtools sort`). -/
def unchecked_site (site : CallSite) : Bool :=
  match site with
  | CallSite.curlLambda => true
  | CallSite.gzipLambda => true
  | CallSite.faidxLambda => true
  | CallSite.alignMinimap2 => true
  | CallSite.alignViewSplit => true
  | CallSite.alignSortLambda => true
  | _ => false

/-- The chain of invocation sites one alignment job runs, as the claim
describes it: aligner, format filter, sort — plus region filter and a second
index when lambda filtering is enabled. -/
def expected_chain_sites (w_lambda : Bool) : List CallSite :=
  if w_lambda then
    [CallSite.alignMinimap2, CallSite.alignViewSplit, CallSite.alignSortLambda,
     CallSite.alignViewLambda, CallSite.alignSamtoolsIndex, CallSite.alignSamtoolsIndex]
  else
    [CallSite.alignMinimap2, CallSite.alignViewSplit, CallSite.alignSortHost,
     CallSite.alignSamtoolsIndex]

/-- Per input file, the QC invocations `generate_pickle` performs: host
alignment QC always, lambda alignment QC when lambda filtering is enabled. -/
def qc_sites_per_file (w_lambda : Bool) : List CallSite :=
  if w_lambda then [CallSite.qcHost, CallSite.qcLambda] else [CallSite.qcHost]

/-- Per pooled BAM (host, unaligned, plus lambda when enabled): one merge
followed by one index of the merged file. -/
def merge_sites_expected (w_lambda : Bool) : List CallSite :=
  if w_lambda then
    [CallSite.mergeBam, CallSite.mergeIndex, CallSite.mergeBam, CallSite.mergeIndex,
     CallSite.mergeBam, CallSite.mergeIndex]
  else
    [CallSite.mergeBam, CallSite.mergeIndex, CallSite.mergeBam, CallSite.mergeIndex]

/-- The fan-out property of one `align` invocation: the worker-pool bound is 1
for one thread and `threads - 1` otherwise; one alignment job is submitted per
collected FASTQ file; each job starts with the minimap2 aligner reading that
job's FASTQ file; and each job's process chain is aligner, format filter,
sort (plus region filter when lambda filtering is on) and the index calls. -/
def fanout_ok (args : AlignArgs) (listing : List String) (isdir isfile : String → Bool)
    (o : Oracle) : Prop :=
  (main_run args listing isdir isfile o).elim True (fun r =>
    r.1.workers = (if args.threads = 1 then 1 else args.threads - 1) ∧
    r.1.job_calls.length = (collect_fastqs args.fastq_dir listing).length ∧
    ((r.1.job_calls.zip (collect_fastqs args.fastq_dir listing)).all
      (fun p => p.1.head?.elim false
        (fun c => c.site == CallSite.alignMinimap2 && c.cmd.getLast? == some p.2))) = true ∧
    (r.1.job_calls.all
      (fun jc => jc.map ExtCall.site == expected_chain_sites args.w_lambda)) = true)

/-! ## prom_beta_tar_gen_config.py (C7, C10) -/

/-- The Python failure modes `get_all_files` can hit: `sys.exit(1)` (line 72),
an `AttributeError` from reading a missing named field of an `itertuples` row,
a `ValueError` (failed tuple unpacking, or `pd.concat` over an empty list),
and a `NameError` (use of a variable no branch assigned). -/
inductive PyError
  | exitOne
  | attributeError
  | valueError
  | nameError
deriving DecidableEq, Repr

deriving instance DecidableEq for Except

/-- A dataframe row: column-name / value pairs. -/
abbrev Row := List (String × String)

/-- A pandas dataframe: its column list and its rows. -/
structure DataFrame where
  columns : List String
  rows : List Row
deriving DecidableEq, Repr

/-- Embeds `row.<c>` on an `itertuples` row: the value of column `c`, or an
`AttributeError` when the (projected) row has no such column. -/
def rowAttr (r : Row) (c : String) : Except PyError String :=
  match r.find? (fun p => p.1 == c) with
  | some p => Except.ok p.2
  | none => Except.error PyError.attributeError

/-- Embeds `df[[c1, ...]]` row projection: keep only the named columns. -/
def projectRow (cols : List String) (r : Row) : Row :=
  r.filter (fun p => cols.contains p.1)

/-- One row of the config dataframe built by `get_all_files`
(prom_beta_tar_gen_config.py lines 25-31 and 113-120). -/
structure ConfigRow where
  zfill_num : String
  rand_id : String
  fast5_pass_file : String
  fast5_pass_file_renamed : String
  fast5_fail_file : String
  fast5_fail_file_renamed : String
  fastq_pass_file : String
  fastq_pass_file_renamed : String
  fastq_fail_file : String
  fastq_fail_file_renamed : String
  md5_fast5_pass : String
  md5_fastq_pass : String
  md5_fast5_fail : String
  md5_fastq_fail : String
deriving DecidableEq, Repr

/-- The body of the `for row in unique_files.itertuples()` loop of
`get_all_files` (lines 76-120).  Line 77 reads `row.filename_fastq`
unconditionally (an `AttributeError` when the projected row lacks that
column) and unpacks `split(".", 1)[0].split("_", 3)` into three targets.
In the `basecall_direct` branch the four fast5 entries are built; line 111
places the fastq fail checksum under `fast5_fail` in the source.  In the
non-direct branch the appended Series (line 113) refers to `fast5_pass_file`
and friends, which that branch never assigned: a `NameError`. -/
def process_row (rand_id : String) (basecall_direct : Bool) (row : Row) :
    Except PyError ConfigRow := do
  let filename_fastq ← rowAttr row "filename_fastq"
  match unpack3 (pySplit ((pySplit filename_fastq "." 1).headD "") "_" 3) with
  | none => Except.error PyError.valueError
  | some (flowcell, _run_id, num) =>
    let zfill_num := pyZfill num 5
    if basecall_direct then do
      let filename_fast5 ← rowAttr row "filename_fast5"
      Except.ok
        { zfill_num := zfill_num
          rand_id := rand_id
          fast5_pass_file := pjoin "fast5_pass" filename_fast5
          fast5_pass_file_renamed :=
            pjoin "fast5_pass"
              (String.intercalate "_" [flowcell, rand_id, "pass", zfill_num] ++ ".fast5.gz")
          fast5_fail_file := pjoin "fast5_fail" filename_fast5
          fast5_fail_file_renamed :=
            pjoin "fast5_fail"
              (String.intercalate "_" [flowcell, rand_id, "fail", zfill_num] ++ ".fast5.gz")
          fastq_pass_file := pjoin "fastq_pass" filename_fastq
          fastq_pass_file_renamed :=
            pjoin "fastq_pass"
              (String.intercalate "_" [flowcell, rand_id, "pass", zfill_num] ++ ".fastq.gz")
          fastq_fail_file := pjoin "fastq_fail" filename_fastq
          fastq_fail_file_renamed :=
            pjoin "fastq_fail"
              (String.intercalate "_" [flowcell, rand_id, "fail", zfill_num] ++ ".fastq.gz")
          md5_fast5_pass := pjoin "fast5_pass" "checksum.fast5.pass.md5"
          md5_fastq_pass := pjoin "fastq_pass" "checksum.fastq.pass.md5"
          md5_fast5_fail := pjoin "fast5_fail" "checksum.fast5.fail.md5"
          md5_fastq_fail := pjoin "fast5_fail" "checksum.fastq.fail.md5" }
    else
      Except.error PyError.nameError

/-- The `for row in unique_files.itertuples()` loop of `get_all_files`: each
row is processed in order, the resulting config rows are collected, and the
first exception aborts the whole call. -/
def processRows (rand_id : String) (basecall_direct : Bool) :
    List Row → Except PyError (List ConfigRow)
  | [] => Except.ok []
  | r :: rs =>
    match process_row rand_id basecall_direct r with
    | Except.error e => Except.error e
    | Except.ok c =>
      match processRows rand_id basecall_direct rs with
      | Except.error e => Except.error e
      | Except.ok cs => Except.ok (c :: cs)

/-- Embeds `get_all_files` (lines 34-121).  With both `filename_fastq` and
`filename_fast5` columns present, the distinct (fastq, fast5) pairs are
processed; with only a `filename` column, the rows projected to it are
processed (and line 77's `row.filename_fastq` read fails on each); with
neither, `sys.exit(1)`.  `pd.concat` over an empty `config_list` raises a
`ValueError`. -/
def get_all_files (rand_id : String) (summary_df : DataFrame) :
    Except PyError (List ConfigRow) :=
  if summary_df.columns.contains "filename_fastq"
      && summary_df.columns.contains "filename_fast5" then
    let unique_files :=
      (summary_df.rows.map (projectRow ["filename_fastq", "filename_fast5"])).eraseDups
    match processRows rand_id true unique_files with
    | Except.error e => Except.error e
    | Except.ok config_list =>
      if config_list.isEmpty then Except.error PyError.valueError
      else Except.ok config_list
  else if summary_df.columns.contains "filename" then
    let unique_files := summary_df.rows.map (projectRow ["filename"])
    match processRows rand_id false unique_files with
    | Except.error e => Except.error e
    | Except.ok config_list =>
      if config_list.isEmpty then Except.error PyError.valueError
      else Except.ok config_list
  else
    Except.error PyError.exitOne

/-- Whether an `Except` computation returned a value. -/
def exceptOk {ε α : Type} (e : Except ε α) : Bool :=
  match e with
  | Except.ok _ => true
  | Except.error _ => false

/-! ## prom_beta_tar_runner.py (C8) -/

/-- File contents, abstractly. -/
abbrev Bytes := List Nat

/-- The filesystem as seen by the tar runner: contents per path. -/
abbrev TarFS := String → Option Bytes

/-- Point update of a `TarFS`. -/
def fsUpdate (fs : TarFS) (p : String) (v : Option Bytes) : TarFS :=
  fun q => if q = p then v else fs q

/-- The log line of `zip_and_move_file` lines 69-70. -/
def skip_message (p : String) : String :=
  "Fastq file " ++ p ++ " already exists in destination and overwrite not set. Skipping"

/-- Embeds `zip_and_move_file` (prom_beta_tar_runner.py lines 66-88), parameterised
by the gzip compression function `gz`.  For a non-dry run: when the output
exists and `overwrite` is not set, only a skip message is logged — the code
then falls through unconditionally, compresses the input to
`<output>.tmp`, moves the tmp file over the output, and removes the input
when `inplace` is set.  A missing input raises (`FileNotFoundError`).
Returns the final filesystem and the emitted log lines. -/
def zip_and_move_file (gz : Bytes → Bytes) (fs : TarFS)
    (file_path file_output_path : String) (overwrite inplace dry_run : Bool) :
    Except String (TarFS × List String) :=
  if !dry_run then
    let logs :=
      if (fs file_output_path).isSome && !overwrite then [skip_message file_output_path]
      else []
    let tmp_output_path := file_output_path ++ ".tmp"
    match fs file_path with
    | none => Except.error "FileNotFoundError"
    | some content =>
      let fs1 := fsUpdate fs tmp_output_path (some (gz content))
      let fs2 := fsUpdate (fsUpdate fs1 file_output_path (fs1 tmp_output_path))
        tmp_output_path none
      let fs3 := if inplace then fsUpdate fs2 file_path none else fs2
      Except.ok (fs3, logs)
  else
    Except.ok (fs, ["Would have gzipped and moved " ++ file_path ++ " into "
      ++ file_output_path])

/-! ## prom_beta_plotter_reader.py (C9) -/

/-- One row of the sequencing-summary dataset, with the numeric columns the
derived QC metrics read.  Floating-point columns are modelled as rationals;
`np.nan` results are modelled as `none`. -/
structure SummaryRow where
  mean_qscore_template : ℚ
  sequence_length_template : ℚ
  template_duration : ℚ
  num_events : ℚ
deriving DecidableEq, Repr

/-- Embeds `get_pass` (prom_beta_plotter_reader.py lines 150-152): per row,
`True if x > 9 else False` on `mean_qscore_template`. -/
def get_pass (dataset : List SummaryRow) : List Bool :=
  dataset.map (fun x => if x.mean_qscore_template > 9 then true else false)

/-- Embeds `get_duration_ratio` (lines 160-164): per row, `np.nan` when
`template_duration == 0`, else `sequence_length_template / template_duration`. -/
def get_duration_ratio (dataset : List SummaryRow) : List (Option ℚ) :=
  dataset.map (fun x =>
    if x.template_duration = 0 then none
    else some (x.sequence_length_template / x.template_duration))

/-- Embeds `get_events_ratio` (lines 167-171): per row, `np.nan` when
`sequence_length_template == 0`, else `num_events / sequence_length_template`. -/
def get_events_ratio (dataset : List SummaryRow) : List (Option ℚ) :=
  dataset.map (fun x =>
    if x.sequence_length_template = 0 then none
    else some (x.num_events / x.sequence_length_template))

/-!
# Theorems

Everything below is a statement about the definitions above; the claim
theorems are marked with their claim ids.
-/

theorem length_pjoin (a b : String) : (pjoin a b).length = a.length + b.length + 1 := by
  simp only [pjoin, String.length_append]
  have h : ("/" : String).length = 1 := rfl
  omega

theorem pyNot_pjoin (a b : String) : pyNot (pjoin a b) = false := by
  simp only [pyNot, length_pjoin, beq_eq_false_iff_ne, ne_eq]
  omega

/-- Helper: the body of `check_index` runs no command, for any genome, because
its guards test the (always non-empty) path strings rather than the files. -/
theorem check_index_eq_nil (g : Genome) : check_index g = [] := by
  unfold check_index
  rw [Genome.host_w_lambda_minimap2_index, Genome.host_genome_path,
    pyNot_pjoin, pyNot_pjoin]
  simp

/-- C2: In the CLI dispatcher `run_function`, a subcommand's `main` is invoked
only when the parsed command equals "align"; for every other command value,
including "config", "tidy" and "plot", `run_function` returns without invoking
any subcommand module's `main`. -/
theorem C2_run_function_only_align :
    (∀ command : String,
      run_function command = if command = "align" then some Module.align else none) ∧
    run_function "config" = none ∧
    run_function "tidy" = none ∧
    run_function "plot" = none := by
  refine ⟨fun command => ?_, rfl, rfl, rfl⟩
  by_cases h : command = "align" <;> simp [run_function, h]

/-- C1: evidence for the claim's failure.  For every genome — in particular
when the selected index file is absent from the filesystem — `check_index`
invokes no index-build command at all: its condition is the truthiness of the
path string (never empty), not a file-existence test, so `generate_index` is
unreachable.  The claim (and the source's own log message "Index file does not
exist. Creating index") requires a build exactly when the index file is
absent. -/
theorem C1_check_index_never_builds (g : Genome) : check_index g = [] :=
  check_index_eq_nil g

theorem combined_ne_host (g : Genome) :
    g.host_w_lambda_genome_path ≠ g.host_genome_path := by
  intro h
  have h' := congrArg String.length h
  simp only [Genome.host_w_lambda_genome_path, Genome.host_genome_path,
    length_pjoin] at h'
  have e1 : ("genome.w_lambda.fa" : String).length = 18 := rfl
  have e2 : ("genome.fa" : String).length = 9 := rfl
  omega

theorem combined_ne_lambda (g : Genome) :
    g.host_w_lambda_genome_path ≠ g.lambda_genome_path := by
  intro h
  have h' := congrArg String.length h
  simp only [Genome.host_w_lambda_genome_path, Genome.lambda_genome_path,
    length_pjoin] at h'
  have e1 : ("genome.w_lambda.fa" : String).length = 18 := rfl
  have e2 : ("genome.fa" : String).length = 9 := rfl
  have e3 : ("lambda" : String).length = 6 := rfl
  omega

/-- C5: When lambda filtering is enabled and the combined reference file does
not yet exist, `get_index` concatenates the decoy lambda reference with the
target genome: the produced combined FASTA holds exactly the host genome's
records, in their original order, followed by the single lambda record, the
original host genome file is left unchanged, and the step completes without
error. -/
theorem C5_combine_lambda_concatenation (g : Genome) (isfile : String → Bool)
    (ffs : FastaFS) (lam : FastaRecord)
    (hwl : g.w_lambda = true)
    (habs : isfile g.host_w_lambda_genome_path = false)
    (hlam : SeqIO_read (ffs g.lambda_genome_path) = some lam) :
    (get_index_combine_step g isfile ffs).1 g.host_w_lambda_genome_path =
        ffs g.host_genome_path ++ [lam] ∧
    (get_index_combine_step g isfile ffs).1 g.host_genome_path =
        ffs g.host_genome_path ∧
    (get_index_combine_step g isfile ffs).2 = true := by
  have hne1 := combined_ne_host g
  have hne2 := combined_ne_lambda g
  have hne1s := Ne.symm hne1
  have hne2s := Ne.symm hne2
  refine ⟨?_, ?_, ?_⟩ <;>
    simp [get_index_combine_step, combine_lambda_genome, hwl, habs,
      hne1, hne2, hne1s, hne2s, hlam]

/-- Witness for C5 at a concrete genome and FASTA filesystem. -/
theorem C5_combine_lambda_concatenation_witness :
    (Genome.mk "genomes" "hg38" true).w_lambda = true ∧
    (fun _ : String => false) (Genome.mk "genomes" "hg38" true).host_w_lambda_genome_path = false ∧
    SeqIO_read ((fun p : String =>
        if p = "genomes/lambda/genome.fa" then [FastaRecord.mk "lambda" "ACGT"]
        else if p = "genomes/hg38/genome.fa" then
          [FastaRecord.mk "chr1" "AAAA", FastaRecord.mk "chr2" "CCCC"]
        else []) (Genome.mk "genomes" "hg38" true).lambda_genome_path) =
      some (FastaRecord.mk "lambda" "ACGT") ∧
    (get_index_combine_step (Genome.mk "genomes" "hg38" true) (fun _ => false)
        (fun p : String =>
          if p = "genomes/lambda/genome.fa" then [FastaRecord.mk "lambda" "ACGT"]
          else if p = "genomes/hg38/genome.fa" then
            [FastaRecord.mk "chr1" "AAAA", FastaRecord.mk "chr2" "CCCC"]
          else [])).1 (Genome.mk "genomes" "hg38" true).host_w_lambda_genome_path =
      [FastaRecord.mk "chr1" "AAAA", FastaRecord.mk "chr2" "CCCC",
       FastaRecord.mk "lambda" "ACGT"] := by
  refine ⟨rfl, rfl, by decide, ?_⟩
  have h := C5_combine_lambda_concatenation (Genome.mk "genomes" "hg38" true)
    (fun _ => false)
    (fun p : String =>
      if p = "genomes/lambda/genome.fa" then [FastaRecord.mk "lambda" "ACGT"]
      else if p = "genomes/hg38/genome.fa" then
        [FastaRecord.mk "chr1" "AAAA", FastaRecord.mk "chr2" "CCCC"]
      else [])
    (FastaRecord.mk "lambda" "ACGT") rfl rfl (by decide)
  rw [h.1]
  decide

/-- C8: For every non-dry-run call to `zip_and_move_file`, the final
filesystem state (and whether the call raises) is independent of the
`overwrite` flag: even when the output file already exists and `overwrite` is
false, the input is still compressed to a temporary path and moved over the
existing output (and the input removed when `inplace` is set).  The flag
affects only whether the skip message is logged: the non-overwrite run's logs
are exactly the skip message (when the output existed) prepended to the
overwrite run's logs. -/
theorem C8_zip_overwrite_flag_only_logs (gz : Bytes → Bytes) (fs : TarFS)
    (file_path file_output_path : String) (inplace : Bool) :
    (zip_and_move_file gz fs file_path file_output_path true inplace false).map Prod.fst =
      (zip_and_move_file gz fs file_path file_output_path false inplace false).map Prod.fst ∧
    (zip_and_move_file gz fs file_path file_output_path false inplace false).map Prod.snd =
      (zip_and_move_file gz fs file_path file_output_path true inplace false).map
        (fun r => (if (fs file_output_path).isSome
          then [skip_message file_output_path] else []) ++ r.snd) := by
  unfold zip_and_move_file
  cases h : fs file_path <;>
    cases h2 : (fs file_output_path).isSome <;>
      simp [h, h2, Except.map]

/-- Helper: pointwise description of a mapped list, as a `Forall₂`. -/
theorem forall₂_map_self {α β : Type} (R : α → β → Prop) (f : α → β) (l : List α)
    (h : ∀ a ∈ l, R a (f a)) : List.Forall₂ R l (l.map f) := by
  induction l with
  | nil => exact List.Forall₂.nil
  | cons a t ih =>
    exact List.Forall₂.cons (h a (List.mem_cons_self a t))
      (ih (fun x hx => h x (List.mem_cons_of_mem a hx)))

/-- C9: For every row of the summary dataset, the derived QC metrics satisfy:
`pass` is true iff `mean_qscore_template > 9`; `pore_speed` equals
`sequence_length_template / template_duration` when `template_duration` is
non-zero and is NaN (`none`) when it is zero; `events_ratio` equals
`num_events / sequence_length_template` when `sequence_length_template` is
non-zero and is NaN (`none`) when it is zero — each division happens only
under its non-zero guard. -/
theorem C9_qc_metrics_guarded (dataset : List SummaryRow) :
    List.Forall₂ (fun x p => p = true ↔ 9 < x.mean_qscore_template)
      dataset (get_pass dataset) ∧
    List.Forall₂ (fun x r =>
        (x.template_duration = 0 → r = none) ∧
        (x.template_duration ≠ 0 →
          r = some (x.sequence_length_template / x.template_duration)))
      dataset (get_duration_ratio dataset) ∧
    List.Forall₂ (fun x r =>
        (x.sequence_length_template = 0 → r = none) ∧
        (x.sequence_length_template ≠ 0 →
          r = some (x.num_events / x.sequence_length_template)))
      dataset (get_events_ratio dataset) := by
  refine ⟨?_, ?_, ?_⟩
  · refine forall₂_map_self _ _ _ (fun x _ => ?_)
    by_cases h : 9 < x.mean_qscore_template <;> simp [h]
  · refine forall₂_map_self _ _ _ (fun x _ => ?_)
    by_cases h : x.template_duration = 0 <;> simp [h]
  · refine forall₂_map_self _ _ _ (fun x _ => ?_)
    by_cases h : x.sequence_length_template = 0 <;> simp [h]

/-- Helper: per-row processing in the non-directly-basecalled branch always
raises: line 77 reads `row.filename_fastq` from a row projected to the
`filename` column only. -/
theorem process_row_nondirect (rid : String) (r : Row) :
    process_row rid false (projectRow ["filename"] r) =
      Except.error PyError.attributeError := by
  have hf : (projectRow ["filename"] r).find? (fun p => p.1 == "filename_fastq") = none := by
    rw [List.find?_eq_none]
    intro p hp
    rcases List.mem_filter.mp hp with ⟨_, hmem⟩
    have hp1 : p.1 = "filename" := by
      simpa using hmem
    rw [hp1]
    decide
  unfold process_row rowAttr
  rw [hf]
  rfl

/-- C10: `get_all_files` returns a config dataframe only for summaries with
both the `filename_fastq` and `filename_fast5` columns; with neither of those
columns and no `filename` column it exits with status 1; and in the
`filename`-only branch the per-row processing reads the `filename_fastq`
field of rows that lack it, raising an `AttributeError`, so no config
dataframe is returned outside the directly-basecalled case. -/
theorem C10_get_all_files_branches (rand_id : String) (df : DataFrame) :
    (exceptOk (get_all_files rand_id df) = true →
      df.columns.contains "filename_fastq" = true ∧
      df.columns.contains "filename_fast5" = true) ∧
    (df.columns.contains "filename_fastq" = false →
      df.columns.contains "filename_fast5" = false →
      df.columns.contains "filename" = false →
      get_all_files rand_id df = Except.error PyError.exitOne) ∧
    ((df.columns.contains "filename_fastq"
        && df.columns.contains "filename_fast5") = false →
      df.columns.contains "filename" = true →
      df.rows ≠ [] →
      get_all_files rand_id df = Except.error PyError.attributeError) := by
  refine ⟨?_, ?_, ?_⟩
  · intro hok
    by_cases h1 : (df.columns.contains "filename_fastq"
        && df.columns.contains "filename_fast5") = true
    · have h1' := h1
      rw [Bool.and_eq_true] at h1'
      exact h1'
    · exfalso
      have h1' : (df.columns.contains "filename_fastq"
          && df.columns.contains "filename_fast5") = false := by
        simpa using h1
      unfold get_all_files at hok
      rw [h1'] at hok
      by_cases h2 : df.columns.contains "filename" = true
      · rw [h2] at hok
        cases hrows : df.rows with
        | nil =>
          rw [hrows] at hok
          simp [processRows, exceptOk] at hok
        | cons r0 rest =>
          rw [hrows] at hok
          simp [processRows, process_row_nondirect, exceptOk] at hok
      · have h2' : df.columns.contains "filename" = false := by simpa using h2
        rw [h2'] at hok
        simp [exceptOk] at hok
  · intro hfq hf5 hfn
    unfold get_all_files
    rw [hfq, hfn]
    simp
  · intro h1 h2 hr
    unfold get_all_files
    rw [h1, h2]
    cases hrows : df.rows with
    | nil => exact absurd hrows hr
    | cons r0 rest =>
      simp [processRows, process_row_nondirect]

/-- Witness for C10 at concrete dataframes: a summary with an unrelated
column exits with status 1; a summary with only a `filename` column raises
reading `filename_fastq`; and whenever `get_all_files` returns a config
dataframe, both filename columns were present. -/
theorem C10_get_all_files_branches_witness :
    get_all_files "abcd"
        (DataFrame.mk ["other"] [[("other", "x")]]) =
      Except.error PyError.exitOne ∧
    get_all_files "abcd"
        (DataFrame.mk ["filename"] [[("filename", "PAD1_r1_0.fast5")]]) =
      Except.error PyError.attributeError ∧
    ((DataFrame.mk ["filename_fastq", "filename_fast5"]
        [[("filename_fastq", "PAD1_r1_0.fastq"),
          ("filename_fast5", "PAD1_r1_0.fast5")]]).columns.contains "filename_fastq" = true ∧
     (DataFrame.mk ["filename_fastq", "filename_fast5"]
        [[("filename_fastq", "PAD1_r1_0.fastq"),
          ("filename_fast5", "PAD1_r1_0.fast5")]]).columns.contains "filename_fast5" = true) := by
  refine ⟨?_, ?_, ?_⟩
  · exact (C10_get_all_files_branches "abcd"
      (DataFrame.mk ["other"] [[("other", "x")]])).2.1 (by decide) (by decide) (by decide)
  · exact (C10_get_all_files_branches "abcd"
      (DataFrame.mk ["filename"] [[("filename", "PAD1_r1_0.fast5")]])).2.2
      (by decide) (by decide) (by decide)
  · exact (C10_get_all_files_branches "abcd"
      (DataFrame.mk ["filename_fastq", "filename_fast5"]
        [[("filename_fastq", "PAD1_r1_0.fastq"),
          ("filename_fast5", "PAD1_r1_0.fast5")]])).1 (by decide)

/-- C7: evidence for the claim's failure on the fastq fail checksum entry.
At a well-formed summary row, every emitted path lies in the directory the
claim requires — except `md5_fastq_fail`, which line 111 of the source places
under `fast5_fail` instead of `fastq_fail` (while naming the file
`checksum.fastq.fail.md5`). -/
theorem C7_md5_fastq_fail_misplaced :
    (process_row "abcd1234" true
        [("filename_fastq", "PAD1_r1_0.fastq"), ("filename_fast5", "PAD1_r1_0.fast5")]).map
      (fun cr =>
        (underDir "fastq_fail" cr.md5_fastq_fail,
         underDir "fast5_fail" cr.md5_fastq_fail,
         underDir "fast5_pass" cr.fast5_pass_file
           && underDir "fast5_pass" cr.fast5_pass_file_renamed
           && underDir "fast5_pass" cr.md5_fast5_pass,
         underDir "fastq_pass" cr.fastq_pass_file
           && underDir "fastq_pass" cr.fastq_pass_file_renamed
           && underDir "fastq_pass" cr.md5_fastq_pass,
         underDir "fast5_fail" cr.fast5_fail_file
           && underDir "fast5_fail" cr.fast5_fail_file_renamed
           && underDir "fast5_fail" cr.md5_fast5_fail,
         underDir "fastq_fail" cr.fastq_fail_file
           && underDir "fastq_fail" cr.fastq_fail_file_renamed)) =
      Except.ok (false, true, true, true, true, true) := by
  decide

/-! ### Alignment-pipeline helper lemmas -/

theorem all_flatten {α : Type} (p : α → Bool) (l : List (List α))
    (h : ∀ x ∈ l, x.all p = true) : l.flatten.all p = true := by
  rw [List.all_eq_true]
  intro a ha
  rcases List.mem_flatten.mp ha with ⟨x, hx, hax⟩
  exact List.all_eq_true.mp (h x hx) a hax

theorem zip_map_all {α β : Type} (fq : List α) (k : α → β) (p : β × α → Bool)
    (h : ∀ a ∈ fq, p (k a, a) = true) : ((fq.map k).zip fq).all p = true := by
  induction fq with
  | nil => rfl
  | cons a t ih =>
    simp only [List.map_cons, List.zip_cons_cons, List.all_cons]
    rw [h a (List.mem_cons_self a t), ih (fun x hx => h x (List.mem_cons_of_mem a hx))]
    rfl

theorem mkSample_nil (input_dir output_dir : String) (g : Genome)
    (listing : List String) (hc : collect_fastqs input_dir listing = []) :
    mkSample input_dir output_dir g listing = none := by
  unfold mkSample
  rw [hc]

theorem mkSample_cons (input_dir output_dir : String) (g : Genome)
    (listing : List String) (f0 : String) (rest : List String)
    (hc : collect_fastqs input_dir listing = f0 :: rest) :
    mkSample input_dir output_dir g listing = sample_init (f0 :: rest) f0 output_dir g := by
  unfold mkSample
  rw [hc]

/-- The fields of a successfully constructed `Sample`. -/
theorem mkSample_fields (input_dir output_dir : String) (g : Genome)
    (listing : List String) :
    (mkSample input_dir output_dir g listing).elim True (fun s =>
      s.fastq_files = collect_fastqs input_dir listing ∧
      s.alignment_objects =
        (collect_fastqs input_dir listing).map
          (fun f => mkSubFolder f output_dir g g.w_lambda) ∧
      s.w_lambda = g.w_lambda) := by
  cases hc : collect_fastqs input_dir listing with
  | nil => rw [mkSample_nil input_dir output_dir g listing hc]; trivial
  | cons f0 rest =>
    rw [mkSample_cons input_dir output_dir g listing f0 rest hc]
    unfold sample_init
    cases hu : unpack3 (pySplit (pyReplace (pyBasename f0) ".fastq.gz" "") "_" 3) with
    | none => trivial
    | some t =>
      obtain ⟨a, fc, rn⟩ := t
      exact ⟨rfl, rfl, rfl⟩

theorem generate_alignment_run_fst (sub : SubFolder) (md : Bool) (cs : String)
    (o o' : Oracle) :
    (generate_alignment_run sub md cs o).1 = (generate_alignment_run sub md cs o').1 := by
  by_cases hw : sub.w_lambda <;> simp [generate_alignment_run, hw]

theorem generate_alignment_run_sites (sub : SubFolder) (md : Bool) (cs : String)
    (o : Oracle) :
    (generate_alignment_run sub md cs o).1.map ExtCall.site =
      expected_chain_sites sub.w_lambda := by
  by_cases hw : sub.w_lambda <;>
    simp [generate_alignment_run, expected_chain_sites, hw]

theorem generate_alignment_run_checked (sub : SubFolder) (md : Bool) (cs : String)
    (o : Oracle) :
    ((generate_alignment_run sub md cs o).1.all
      (fun c => c.checked == !unchecked_site c.site)) = true := by
  by_cases hw : sub.w_lambda <;>
    simp [generate_alignment_run, hw, unchecked_site]

theorem generate_alignment_run_head (sub : SubFolder) (md : Bool) (cs : String)
    (o : Oracle) :
    (generate_alignment_run sub md cs o).1.head? =
      some ⟨CallSite.alignMinimap2, minimap2_alignment_command sub md cs, false⟩ := by
  by_cases hw : sub.w_lambda <;> simp [generate_alignment_run, hw]

theorem minimap2_alignment_command_getLast (sub : SubFolder) (md : Bool) (cs : String) :
    (minimap2_alignment_command sub md cs).getLast? = some sub.fastq_path := by
  by_cases hmd : md <;>
    by_cases h1 : (cs == "long") = true <;>
      by_cases h2 : (cs == "short") = true <;>
        simp [minimap2_alignment_command, hmd, h1, h2]

theorem generate_pickle_run_sites (sub : SubFolder) (o : Oracle) :
    (generate_pickle_run sub o).1.map ExtCall.site = qc_sites_per_file sub.w_lambda := by
  by_cases hw : sub.w_lambda <;>
    simp [generate_pickle_run, qc_sites_per_file, hw]

theorem generate_pickle_run_fst (sub : SubFolder) (o o' : Oracle) :
    (generate_pickle_run sub o).1 = (generate_pickle_run sub o').1 := by
  by_cases hw : sub.w_lambda <;> simp [generate_pickle_run, hw]

theorem generate_pickle_run_checked (sub : SubFolder) (o : Oracle) :
    ((generate_pickle_run sub o).1.all
      (fun c => c.checked == !unchecked_site c.site)) = true := by
  by_cases hw : sub.w_lambda <;>
    simp [generate_pickle_run, hw, unchecked_site]

theorem merge_bams_run_sites (s : Sample) (o : Oracle) :
    (merge_bams_run s o).1.map ExtCall.site = merge_sites_expected s.w_lambda := by
  by_cases hw : s.w_lambda <;>
    simp [merge_bams_run, merge_sites_expected, hw]

theorem merge_bams_run_checked (s : Sample) (o : Oracle) :
    ((merge_bams_run s o).1.all
      (fun c => c.checked == !unchecked_site c.site)) = true := by
  by_cases hw : s.w_lambda <;>
    simp [merge_bams_run, hw, unchecked_site]

theorem run_wubber_multiqc_run_checked (s : Sample) (q : String) (o : Oracle) :
    ((run_wubber_multiqc_run s q o).1.all
      (fun c => c.checked == !unchecked_site c.site)) = true := by
  simp [run_wubber_multiqc_run, unchecked_site]

theorem get_index_run_fst (g : Genome) (isdir isfile : String → Bool) (o o' : Oracle) :
    (get_index_run g isdir isfile o).map Prod.fst =
      (get_index_run g isdir isfile o').map Prod.fst := by
  unfold get_index_run
  split
  · rfl
  · split
    · rfl
    · rfl

theorem get_index_run_checked (g : Genome) (isdir isfile : String → Bool) (o : Oracle)
    (r : List ExtCall × List String) (h : get_index_run g isdir isfile o = some r) :
    (r.1.all (fun c => c.checked == !unchecked_site c.site)) = true := by
  unfold get_index_run at h
  split at h
  · exact absurd h (by simp)
  · split at h
    · exact absurd h (by simp)
    · rw [check_index_eq_nil] at h
      injection h with h
      subst h
      by_cases h1 : (g.w_lambda && !isfile g.lambda_genome_path) = true <;>
        by_cases h2 : (g.w_lambda && !isfile g.lambda_samtools_index) = true <;>
          simp [h1, h2, unchecked_site]

theorem run_wubber_multiqc_run_sites (s : Sample) (q : String) (o : Oracle) :
    (run_wubber_multiqc_run s q o).1.map ExtCall.site = [CallSite.multiqc] := rfl

/-- C3 (amended): in every `align` run, after all per-file alignment jobs
complete, the per-file BAM outputs are merged into the pooled BAM files (host
and unaligned, plus lambda when lambda filtering is enabled), one external
merge command plus one index command per pooled file; the fixed external QC
tool is then run once per *input file* on the per-file host alignment (plus
the per-file lambda alignment when lambda filtering is enabled — the per-file
unaligned QC is commented out), and a single final aggregate-report invocation
follows. -/
theorem C3_align_postprocessing (args : AlignArgs) (listing : List String)
    (isdir isfile : String → Bool) (o : Oracle) :
    (main_run args listing isdir isfile o).elim True (fun r =>
      r.1.merge_calls.map ExtCall.site = merge_sites_expected args.w_lambda ∧
      r.1.qc_calls.length = r.1.job_calls.length ∧
      (r.1.qc_calls.all
        (fun qc => qc.map ExtCall.site == qc_sites_per_file args.w_lambda)) = true ∧
      r.1.report_calls.map ExtCall.site = [CallSite.multiqc]) := by
  unfold main_run main_align_phases
  cases h1 : get_index_run ⟨args.genome_dir, args.genome, args.w_lambda⟩ isdir isfile o with
  | none => trivial
  | some ri =>
    obtain ⟨ic, il⟩ := ri
    cases hs : mkSample args.fastq_dir args.output_dir
        ⟨args.genome_dir, args.genome, args.w_lambda⟩ listing with
    | none => trivial
    | some s =>
      have hf := mkSample_fields args.fastq_dir args.output_dir
        ⟨args.genome_dir, args.genome, args.w_lambda⟩ listing
      rw [hs] at hf
      simp only [Option.elim_some] at hf
      obtain ⟨-, hobj, hwl⟩ := hf
      show (merge_bams_run s o).1.map ExtCall.site = merge_sites_expected args.w_lambda ∧
        ((s.alignment_objects.map
            (fun sub => generate_pickle_run sub o)).map (fun j => j.1)).length =
          ((s.alignment_objects.map
            (fun sub => generate_alignment_run sub args.md args.cs o)).map
              (fun j => j.1)).length ∧
        (((s.alignment_objects.map
            (fun sub => generate_pickle_run sub o)).map (fun j => j.1)).all
          (fun qc => qc.map ExtCall.site == qc_sites_per_file args.w_lambda)) = true ∧
        (run_wubber_multiqc_run s (pjoin args.output_dir "wub") o).1.map ExtCall.site =
          [CallSite.multiqc]
      refine ⟨?_, ?_, ?_, ?_⟩
      · rw [merge_bams_run_sites, hwl]
      · simp [List.length_map]
      · rw [List.all_eq_true]
        intro qc hqc
        simp only [List.map_map, List.mem_map] at hqc
        obtain ⟨sub, hsub, hqc⟩ := hqc
        have hsubwl : sub.w_lambda = args.w_lambda := by
          rw [hobj] at hsub
          rcases List.mem_map.mp hsub with ⟨f, -, hfsub⟩
          rw [← hfsub]
          rfl
        rw [← hqc]
        simp [generate_pickle_run_sites, hsubwl]
      · rw [run_wubber_multiqc_run_sites]

/-- C3 counterexample: on a lambda-filtered run with one FASTQ input, the
pipeline performs two per-file QC invocations but has three pooled BAM files,
so the QC tool is not "run once per pooled file" as claimed: the counts (and
targets) differ. -/
theorem C3_qc_not_per_pooled_file :
    (main_run (AlignArgs.mk "fastqs" "out" "genomes" "mm10" true "long" false 4)
        ["mouse_FLO1_1.fastq.gz"] (fun _ => true) (fun _ => true) (fun _ => 0)).map
      (fun r =>
        ((r.1.qc_calls.flatten.filter
            (fun c => c.site == CallSite.qcHost || c.site == CallSite.qcLambda)).length ==
          (r.1.merge_calls.filter (fun c => c.site == CallSite.mergeBam)).length)) =
      some false := by
  decide

/-- C4 (amended): for every external invocation of the align pipeline, the
invocation sequence is a function of the inputs alone — it never depends on
any exit code, so there is no retry or recovery (the first six conjuncts:
each stage's emitted commands are identical under any two exit-code oracles) —
and the exit code of a call is inspected (followed only by logging) exactly at
the sites outside `unchecked_site`: the index build, the tail of each
alignment pipe, the per-file and merged `samtools index` calls, the merges,
the per-file QC calls and the aggregate report are checked; the lambda
download, decompression and faidx calls and the non-final processes of each
alignment pipe are not. -/
theorem C4_exit_code_checking :
    (∀ (g : Genome) (isdir isfile : String → Bool) (o o' : Oracle),
      (get_index_run g isdir isfile o).map Prod.fst =
        (get_index_run g isdir isfile o').map Prod.fst) ∧
    (∀ (sub : SubFolder) (md : Bool) (cs : String) (o o' : Oracle),
      (generate_alignment_run sub md cs o).1 = (generate_alignment_run sub md cs o').1) ∧
    (∀ (s : Sample) (o o' : Oracle),
      (merge_bams_run s o).1 = (merge_bams_run s o').1) ∧
    (∀ (sub : SubFolder) (o o' : Oracle),
      (generate_pickle_run sub o).1 = (generate_pickle_run sub o').1) ∧
    (∀ (s : Sample) (q : String) (o o' : Oracle),
      (run_wubber_multiqc_run s q o).1 = (run_wubber_multiqc_run s q o').1) ∧
    (∀ (args : AlignArgs) (listing : List String) (isdir isfile : String → Bool)
        (o o' : Oracle),
      (main_run args listing isdir isfile o).map Prod.fst =
        (main_run args listing isdir isfile o').map Prod.fst) ∧
    (∀ (args : AlignArgs) (listing : List String) (isdir isfile : String → Bool)
        (o : Oracle),
      (main_run args listing isdir isfile o).elim True (fun r =>
        (r.1.allCalls.all (fun c => c.checked == !unchecked_site c.site)) = true)) := by
  refine ⟨get_index_run_fst, generate_alignment_run_fst, fun s o o' => rfl,
    generate_pickle_run_fst, fun s q o o' => rfl, ?_, ?_⟩
  · intro args listing isdir isfile o o'
    have hidx := get_index_run_fst ⟨args.genome_dir, args.genome, args.w_lambda⟩
      isdir isfile o o'
    unfold main_run main_align_phases
    cases h1 : get_index_run ⟨args.genome_dir, args.genome, args.w_lambda⟩ isdir isfile o with
    | none =>
      rw [h1] at hidx
      cases h1' : get_index_run ⟨args.genome_dir, args.genome, args.w_lambda⟩
          isdir isfile o' with
      | none => rfl
      | some r' => rw [h1'] at hidx; simp at hidx
    | some r =>
      rw [h1] at hidx
      cases h1' : get_index_run ⟨args.genome_dir, args.genome, args.w_lambda⟩
          isdir isfile o' with
      | none => rw [h1'] at hidx; simp at hidx
      | some r' =>
        rw [h1'] at hidx
        simp only [Option.map_some'] at hidx
        have hfst : r.1 = r'.1 := Option.some.inj hidx
        obtain ⟨ic, il⟩ := r
        obtain ⟨ic', il'⟩ := r'
        cases hs : mkSample args.fastq_dir args.output_dir
            ⟨args.genome_dir, args.genome, args.w_lambda⟩ listing with
        | none => rfl
        | some s =>
          show some (AlignPhases.mk (pool_workers args.threads) ic
              ((s.alignment_objects.map
                (fun sub => generate_alignment_run sub args.md args.cs o)).map (fun j => j.1))
              ((merge_bams_run s o).1)
              ((s.alignment_objects.map
                (fun sub => generate_pickle_run sub o)).map (fun j => j.1))
              ((run_wubber_multiqc_run s (pjoin args.output_dir "wub") o).1)) =
            some (AlignPhases.mk (pool_workers args.threads) ic'
              ((s.alignment_objects.map
                (fun sub => generate_alignment_run sub args.md args.cs o')).map (fun j => j.1))
              ((merge_bams_run s o').1)
              ((s.alignment_objects.map
                (fun sub => generate_pickle_run sub o')).map (fun j => j.1))
              ((run_wubber_multiqc_run s (pjoin args.output_dir "wub") o').1))
          have hjobs :
              (s.alignment_objects.map
                (fun sub => generate_alignment_run sub args.md args.cs o)).map (fun j => j.1) =
              (s.alignment_objects.map
                (fun sub => generate_alignment_run sub args.md args.cs o')).map (fun j => j.1) := by
            rw [List.map_map, List.map_map]
            exact List.map_congr_left
              (fun sub _ => generate_alignment_run_fst sub args.md args.cs o o')
          have hqcs :
              (s.alignment_objects.map
                (fun sub => generate_pickle_run sub o)).map (fun j => j.1) =
              (s.alignment_objects.map
                (fun sub => generate_pickle_run sub o')).map (fun j => j.1) := by
            rw [List.map_map, List.map_map]
            exact List.map_congr_left (fun sub _ => generate_pickle_run_fst sub o o')
          have hic : ic = ic' := hfst
          rw [hic, hjobs, hqcs]
          rfl
  · intro args listing isdir isfile o
    unfold main_run main_align_phases
    cases h1 : get_index_run ⟨args.genome_dir, args.genome, args.w_lambda⟩ isdir isfile o with
    | none => trivial
    | some ri =>
      obtain ⟨ic, il⟩ := ri
      cases hs : mkSample args.fastq_dir args.output_dir
          ⟨args.genome_dir, args.genome, args.w_lambda⟩ listing with
      | none => trivial
      | some s =>
        show ((AlignPhases.mk (pool_workers args.threads) ic
            ((s.alignment_objects.map
              (fun sub => generate_alignment_run sub args.md args.cs o)).map (fun j => j.1))
            ((merge_bams_run s o).1)
            ((s.alignment_objects.map
              (fun sub => generate_pickle_run sub o)).map (fun j => j.1))
            ((run_wubber_multiqc_run s (pjoin args.output_dir "wub") o).1)).allCalls.all
              (fun c => c.checked == !unchecked_site c.site)) = true
        unfold AlignPhases.allCalls
        simp only [List.all_append, Bool.and_eq_true]
        refine ⟨⟨⟨⟨?_, ?_⟩, ?_⟩, ?_⟩, ?_⟩
        · exact get_index_run_checked ⟨args.genome_dir, args.genome, args.w_lambda⟩
            isdir isfile o (ic, il) h1
        · refine all_flatten _ _ (fun x hx => ?_)
          simp only [List.map_map, List.mem_map] at hx
          obtain ⟨sub, -, hx⟩ := hx
          rw [← hx]
          exact generate_alignment_run_checked sub args.md args.cs o
        · exact merge_bams_run_checked s o
        · refine all_flatten _ _ (fun x hx => ?_)
          simp only [List.map_map, List.mem_map] at hx
          obtain ⟨sub, -, hx⟩ := hx
          rw [← hx]
          exact generate_pickle_run_checked sub o
        · exact run_wubber_multiqc_run_checked s (pjoin args.output_dir "wub") o

/-- C4 counterexample: on a lambda-filtered run whose lambda files are absent,
the pipeline performs invocations (the `curl` download, the `gzip`
decompression, `samtools faidx`, and the upstream processes of the alignment
pipe) whose exit codes are never checked, so it is not the case that every
external invocation's exit code is checked. -/
theorem C4_unchecked_calls_exist :
    (main_run (AlignArgs.mk "fastqs" "out" "genomes" "mm10" true "long" false 4)
        ["mouse_FLO1_1.fastq.gz"] (fun _ => true)
        (fun p => p == "genomes/mm10/genome.fa") (fun _ => 0)).map
      (fun r => r.1.allCalls.all (fun c => c.checked)) = some false := by
  decide

/-- C6: For every align invocation with at least one thread, the pipeline
submits exactly one independent alignment job per collected FASTQ file to a
worker pool bounded at 1 worker when `threads = 1` and at `threads - 1`
otherwise, and each job pipes one aligner process (reading that job's FASTQ
file) through the fixed chain of external processes — format filter, then
sort, plus a region filter when lambda filtering is enabled — to files on the
filesystem. -/
theorem C6_alignment_fanout (args : AlignArgs) (listing : List String)
    (isdir isfile : String → Bool) (o : Oracle) (h : 1 ≤ args.threads) :
    fanout_ok args listing isdir isfile o := by
  unfold fanout_ok main_run main_align_phases
  cases h1 : get_index_run ⟨args.genome_dir, args.genome, args.w_lambda⟩ isdir isfile o with
  | none => trivial
  | some ri =>
    obtain ⟨ic, il⟩ := ri
    cases hs : mkSample args.fastq_dir args.output_dir
        ⟨args.genome_dir, args.genome, args.w_lambda⟩ listing with
    | none => trivial
    | some s =>
      have hf := mkSample_fields args.fastq_dir args.output_dir
        ⟨args.genome_dir, args.genome, args.w_lambda⟩ listing
      rw [hs] at hf
      simp only [Option.elim_some] at hf
      obtain ⟨-, hobj, hwl⟩ := hf
      show pool_workers args.threads =
          (if args.threads = 1 then 1 else args.threads - 1) ∧
        ((s.alignment_objects.map
          (fun sub => generate_alignment_run sub args.md args.cs o)).map
            (fun j => j.1)).length =
          (collect_fastqs args.fastq_dir listing).length ∧
        ((((s.alignment_objects.map
            (fun sub => generate_alignment_run sub args.md args.cs o)).map
              (fun j => j.1)).zip (collect_fastqs args.fastq_dir listing)).all
          (fun p => p.1.head?.elim false
            (fun c => c.site == CallSite.alignMinimap2
              && c.cmd.getLast? == some p.2))) = true ∧
        (((s.alignment_objects.map
            (fun sub => generate_alignment_run sub args.md args.cs o)).map
              (fun j => j.1)).all
          (fun jc => jc.map ExtCall.site == expected_chain_sites args.w_lambda)) = true
      refine ⟨rfl, ?_, ?_, ?_⟩
      · simp [hobj, List.length_map]
      · rw [hobj, List.map_map, List.map_map]
        refine zip_map_all _ _ _ (fun f _ => ?_)
        simp only [Function.comp]
        rw [generate_alignment_run_head]
        simp only [Option.elim_some]
        rw [minimap2_alignment_command_getLast]
        simp [mkSubFolder]
      · rw [List.all_eq_true]
        intro jc hjc
        simp only [List.map_map, List.mem_map] at hjc
        obtain ⟨sub, hsub, hjc⟩ := hjc
        have hsubwl : sub.w_lambda = args.w_lambda := by
          rw [hobj] at hsub
          rcases List.mem_map.mp hsub with ⟨f, -, hfsub⟩
          rw [← hfsub]
          rfl
        rw [← hjc]
        simp [generate_alignment_run_sites, hsubwl]

/-- Witness for C6 at a concrete invocation with four threads, for which the
pipeline trace exists (`main_run` returns a phase structure). -/
theorem C6_alignment_fanout_witness :
    fanout_ok (AlignArgs.mk "fastqs" "out" "genomes" "mm10" false "long" false 4)
      ["mouse_FLO1_1.fastq.gz"] (fun _ => true) (fun _ => true) (fun _ => 0) ∧
    (main_run (AlignArgs.mk "fastqs" "out" "genomes" "mm10" false "long" false 4)
      ["mouse_FLO1_1.fastq.gz"] (fun _ => true) (fun _ => true) (fun _ => 0)).isSome = true :=
  ⟨C6_alignment_fanout (AlignArgs.mk "fastqs" "out" "genomes" "mm10" false "long" false 4)
      ["mouse_FLO1_1.fastq.gz"] (fun _ => true) (fun _ => true) (fun _ => 0) (by decide),
   by decide⟩

end Betaduck
